import Mathlib

/-!
Verification of the process-supervision and dispatch subsystem of the
container entrypoint script (bundles/runner/02_entrypoint.py).

The embedding is a shallow one:

* `dispatch`, `run_shell`, `start_service`, `execute` are translated as pure
  functions from their inputs (argument vector, filesystem contents, the
  child's exit status) to the calls they make, recorded as values.
* The stateful parts (`ChildSubReaper`, `GraceFulShutdown`, `run_cron`) are
  translated as explicit state passing over a `World` record holding the
  process-wide SIGTERM handler-table entry, the subreaper flag, the states of
  the relevant child processes, and an event trace.  Asynchronous signal
  delivery and child exits are environment actions (`ScopeAct`) folded over
  the state, so theorems quantify over arbitrary interleavings.
* Fallible Python code is translated with `Except PyErr` / `Option`:
  `PyErr.attributeError` models `None.terminate()` raising AttributeError,
  `PyErr.osError` models `os.kill` failing with ESRCH, `Option` models a
  drain loop that would block forever on a wait stream with no failure.

The script is Python 2 (`import ConfigParser`); `subprocess.Popen.terminate`
there is an unguarded `os.kill(self.pid, SIGTERM)`.
-/

/-- A SIGTERM disposition in the process-wide signal-handler table:
the OS default, the ignore disposition, some arbitrary previously installed
Python handler, or the bound `graceful_shutdown_handler` method installed by
`GraceFulShutdown.__enter__`. -/
inductive Handler
  | dfl
  | ign
  | pyHandler (name : String)
  | gfs
deriving DecidableEq, Repr

/-- The lifecycle of a child process as seen by the supervisor: running,
exited but not yet waited on (zombie), or exited and already reaped. -/
inductive ProcState
  | alive
  | zombie
  | reaped
deriving DecidableEq, Repr

/-- Python exceptions the modelled fragments can raise. -/
inductive PyErr
  | attributeError
  | osError
  | indexError
  | calledProcessError
deriving DecidableEq, Repr

/-- Observable events of the entrypoint: prctl subreaper toggles, handler
installations, spawns, waits, forwarded termination signals, renderings of
configuration templates, blocking `check_call` invocations, log lines, and
exceptions escaping a signal handler. -/
inductive Event
  | prctlSubreaper (activate : Bool)
  | sigInstall (h : Handler)
  | spawn (argv : List String) (cwd : Option String) (env : List (String × String))
  | waitChild (pid : Nat)
  | terminateSig (pid : Nat)
  | render (source destination : String) (context : List (String × String))
  | checkCall (argv : List String)
  | logInfo (msg : String)
  | logReaped (pid status : Nat)
  | exnRaised (e : PyErr)
deriving DecidableEq, Repr

/-- Constant `SCRIPT_DIR` of the entrypoint. -/
def SCRIPT_DIR : String := "/scripts"

/-- Constant `BLUE_HOME` of the entrypoint. -/
def BLUE_HOME : String := "/home/blue"

/-- Constant `TEMPLATE_PATH = os.path.join(BLUE_HOME, 'templates')`. -/
def TEMPLATE_PATH : String := "/home/blue/templates"

/-- `GraceFulShutdown.SIGTERM = 15`. -/
def SIGTERM : Nat := 15

/-- The launcher selected by `dispatch`, with the positional arguments it is
applied to: `run_shell(*args)` receives the full vector, while `run_cron` and
`start_service` bind the first element as `command` and the rest as `*args`. -/
inductive LauncherCall
  | runShell (args : List String)
  | runCron (command : String) (args : List String)
  | startService (command : String) (args : List String)
deriving DecidableEq, Repr

/-- `dispatch(args)` from the entrypoint:
`args = args or ['/bin/bash']`, then
`service_mapping.get(args[0], run_shell)(*args)` with
`service_mapping = dict(cron = run_cron, start = start_service)`. -/
def dispatch (args : List String) : LauncherCall :=
  let args1 := if args.isEmpty then ["/bin/bash"] else args
  match args1 with
  | [] => LauncherCall.runShell ["/bin/bash"]
  | a :: rest =>
    if a = "cron" then LauncherCall.runCron a rest
    else if a = "start" then LauncherCall.startService a rest
    else LauncherCall.runShell (a :: rest)

/-- A `GraceFulShutdown` object: `__init__` sets `self.process = None` and
`self.old_handler = None`; `__enter__` fills both in. -/
structure GFS where
  process : Option Nat
  old_handler : Option Handler
deriving DecidableEq, Repr

/-- The state the modelled fragments read and write: the SIGTERM entry of the
process-wide handler table, the process-wide subreaper flag, the states of
the child processes the supervisor spawned, and the trace of events so far.
Process-state updates prepend to `procs` and `procLookup` takes the first
match, so the newest entry for a pid shadows older ones. -/
structure World where
  sigterm_handler : Handler
  subreaper : Bool
  procs : List (Nat × ProcState)
  trace : List Event
deriving DecidableEq, Repr

/-- First-match lookup of a pid in the process table. -/
def procLookup (ps : List (Nat × ProcState)) (pid : Nat) : Option ProcState :=
  match ps with
  | [] => none
  | (q, s) :: rest => if q = pid then some s else procLookup rest pid

/-- `os.kill(pid, SIGTERM)` as called by `subprocess.Popen.terminate` in
Python 2 (which does not guard on the child having exited): POSIX kill(2)
succeeds while the target process exists (alive or zombie) and fails with
ESRCH, raising OSError, once the pid has been reaped or never existed. -/
def osKill (w : World) (pid : Nat) : Except PyErr World :=
  match procLookup w.procs pid with
  | some ProcState.alive =>
    Except.ok { w with trace := w.trace ++ [Event.terminateSig pid] }
  | some ProcState.zombie =>
    Except.ok { w with trace := w.trace ++ [Event.terminateSig pid] }
  | some ProcState.reaped => Except.error PyErr.osError
  | none => Except.error PyErr.osError

/-- `GraceFulShutdown.graceful_shutdown_handler(signal_code, _frame)`:
`if signal_code == self.SIGTERM: self.process.terminate()`.  Before
`__enter__`'s `Popen` call completes, `self.process` is still `None`, and
`None.terminate()` raises AttributeError. -/
def graceful_shutdown_handler (g : GFS) (w : World) (signal_code : Nat) :
    Except PyErr World :=
  if signal_code = SIGTERM then
    match g.process with
    | none => Except.error PyErr.attributeError
    | some pid => osKill w pid
  else Except.ok w

/-- `GraceFulShutdown.__enter__`: save the current SIGTERM handler into
`self.old_handler`, install `self.graceful_shutdown_handler`, then spawn
`subprocess.Popen(*self.args, **self.kwargs)` and store the handle.  Returns
the updated object and world; the fresh pid is an environment parameter. -/
def gfs_enter (argv : List String) (env : List (String × String)) (pid : Nat)
    (g : GFS) (w : World) : GFS × World :=
  let g1 : GFS := { g with old_handler := some w.sigterm_handler }
  let w1 : World := { w with sigterm_handler := Handler.gfs,
                             trace := w.trace ++ [Event.sigInstall Handler.gfs] }
  let g2 : GFS := { g1 with process := some pid }
  let w2 : World := { w1 with procs := (pid, ProcState.alive) :: w1.procs,
                              trace := w1.trace ++ [Event.spawn argv none env] }
  (g2, w2)

/-- `GraceFulShutdown.__exit__`: `signal.signal(SIGTERM, self.old_handler)`.
`signal.signal` rejects `None` (a TypeError), which can only happen if
`__exit__` ran without `__enter__`; that case is `none`. -/
def gfs_exit (g : GFS) (w : World) : Option World :=
  match g.old_handler with
  | some h =>
    some { w with sigterm_handler := h, trace := w.trace ++ [Event.sigInstall h] }
  | none => none

/-- Asynchronous environment actions while a launcher runs: the OS delivers a
signal to the supervisor, a child exits on its own, a child gets reaped. -/
inductive ScopeAct
  | deliver (code : Nat)
  | childExits (pid : Nat)
  | reap (pid : Nat)
deriving DecidableEq, Repr

/-- One environment action against the supervisor state.  A delivered SIGTERM
runs the installed disposition: if it is the `graceful_shutdown_handler` of
`g`, the handler runs (an exception escaping it is recorded in the trace and
does not change the handler table); the default, ignore, and prior Python
dispositions do not touch the modelled state.  Child exits and reaps update
the process table only. -/
def scopeStep (g : GFS) (w : World) (a : ScopeAct) : World :=
  match a with
  | ScopeAct.deliver code =>
    if code = SIGTERM then
      match w.sigterm_handler with
      | Handler.gfs =>
        match graceful_shutdown_handler g w code with
        | Except.ok w1 => w1
        | Except.error err => { w with trace := w.trace ++ [Event.exnRaised err] }
      | _ => w
    else w
  | ScopeAct.childExits pid =>
    match procLookup w.procs pid with
    | some ProcState.alive => { w with procs := (pid, ProcState.zombie) :: w.procs }
    | _ => w
  | ScopeAct.reap pid =>
    match procLookup w.procs pid with
    | some ProcState.alive => { w with procs := (pid, ProcState.reaped) :: w.procs }
    | some ProcState.zombie => { w with procs := (pid, ProcState.reaped) :: w.procs }
    | _ => w

/-- The ways the `os.wait()` primitive can fail, all raised as OSError in
Python 2: ECHILD (the true "no more children" condition), EINTR (interrupted
by a signal), or anything else.  `except OSError` catches every one. -/
inductive WaitErr
  | echild
  | eintr
  | otherErr
deriving DecidableEq, Repr

/-- `ChildSubReaper.wait_for_children`: `while True: try: pid, status =
os.wait(); log('Process #%s terminated with status %s') except OSError:
log('All children were terminated.'); break`.  The behaviour of `os.wait`
across iterations is an environment stream of results; the loop consumes it
until the first failure.  `none` models the loop still blocked because the
stream never fails (the code has no other way out of the loop). -/
def wait_for_children : List (Except WaitErr (Nat × Nat)) → Option (List Event)
  | [] => none
  | Except.ok (pid, status) :: rest =>
    Option.map (fun tr => Event.logReaped pid status :: tr) (wait_for_children rest)
  | Except.error _ :: _ => some [Event.logInfo "All children were terminated."]

/-- `ChildSubReaper.__enter__`: `prctl(PR_SET_CHILD_SUBREAPER, 1)`. -/
def csr_enter (w : World) : World :=
  { w with subreaper := true, trace := w.trace ++ [Event.prctlSubreaper true] }

/-- `ChildSubReaper.__exit__`: run `wait_for_children()` to completion, then
`prctl(PR_SET_CHILD_SUBREAPER, 0)`.  The flag is unset only after the drain
loop has terminated. -/
def csr_exit (stream : List (Except WaitErr (Nat × Nat))) (w : World) :
    Option World :=
  Option.map
    (fun tr => { w with subreaper := false,
                        trace := w.trace ++ tr ++ [Event.prctlSubreaper false] })
    (wait_for_children stream)

/-- The `with ChildSubReaper(): body` statement: `__enter__`, then the body
(which ends in some state and either returns or raises `some err`), then
`__exit__` — which Python runs whether or not the body raised; since
`__exit__` returns `None`, a body exception propagates afterwards, paired
here with the post-cleanup state. -/
def withChildSubReaper (stream : List (Except WaitErr (Nat × Nat)))
    (body : World → World × Option PyErr) (w : World) :
    Option (World × Option PyErr) :=
  let w1 := csr_enter w
  let br := body w1
  Option.map (fun w2 => (w2, br.2)) (csr_exit stream br.1)

/-- First-match lookup in an environment mapping, `os.environ.get`. -/
def envLookup (environ : List (String × String)) (key : String) : Option String :=
  match environ with
  | [] => none
  | (k, v) :: rest => if k = key then some v else envLookup rest key

/-- `cron_daemon_cmd = ['sudo', 'cron', '-f']` from `run_cron`. -/
def cron_daemon_cmd : List String := ["sudo", "cron", "-f"]

/-- `cron_daemon_env = dict(TZ = os.environ.get('GROCKER_CRON_TZ', 'UTC'))`. -/
def cron_daemon_env (environ : List (String × String)) : List (String × String) :=
  [("TZ", (envLookup environ "GROCKER_CRON_TZ").getD "UTC")]

/-- `p.wait()`: block until the child terminates, reap it, and return.  The
exit status it returns is discarded by `run_cron`. -/
def p_wait (pid : Nat) (w : World) : World :=
  { w with procs := (pid, ProcState.reaped) :: w.procs,
           trace := w.trace ++ [Event.waitChild pid] }

/-- `run_cron(command, *args)`: inside `with ChildSubReaper()`, log, then
`with GraceFulShutdown(cron_daemon_cmd, env = cron_daemon_env) as p:
p.wait()`.  The environment actions `acts` happen while the launcher is
blocked in `p.wait()`; `stream` drives the drain loop of the outer scope's
`__exit__`; `pid` is the pid `Popen` assigns to the cron daemon. -/
def run_cron (environ : List (String × String)) (pid : Nat)
    (acts : List ScopeAct) (stream : List (Except WaitErr (Nat × Nat)))
    (w : World) : Option World :=
  let w1 := csr_enter w
  let w2 : World := { w1 with trace := w1.trace ++ [Event.logInfo "-> running cron daemon..."] }
  let gw := gfs_enter cron_daemon_cmd (cron_daemon_env environ) pid
    { process := none, old_handler := none } w2
  let w3 := acts.foldl (scopeStep gw.1) gw.2
  let w4 := p_wait pid w3
  match gfs_exit gw.1 w4 with
  | none => none
  | some w5 => csr_exit stream w5

/-- The supervision-lifecycle events: subreaper toggles, handler-table
writes, child spawns, and blocking waits on a child.  Signal forwards, log
lines, renders and `check_call` invocations are not lifecycle events. -/
def isScopeEvent : Event → Bool
  | Event.prctlSubreaper _ => true
  | Event.sigInstall _ => true
  | Event.spawn _ _ _ => true
  | Event.waitChild _ => true
  | _ => false

/-- Whether an event is a termination signal forwarded to a child. -/
def isForwardSig : Event → Bool
  | Event.terminateSig _ => true
  | _ => false

/-- How many termination signals a trace forwards to children. -/
def countForward (tr : List Event) : Nat := tr.countP isForwardSig

/-- Whether an `Except` result is a normal return (no exception raised). -/
def exceptOk (r : Except PyErr World) : Bool :=
  match r with
  | Except.ok _ => true
  | Except.error _ => false

/-- A concrete quiescent world: SIGTERM at its default disposition, subreaper
flag unset, no children, empty trace. -/
def cexWorld : World :=
  { sigterm_handler := Handler.dfl, subreaper := false, procs := [], trace := [] }

/-- A concrete world inside a `GraceFulShutdown` scope after the wrapped
child (pid 5) has exited and `p.wait()` has reaped it, but before `__exit__`
has restored the old handler. -/
def cexWorldReaped : World :=
  { sigterm_handler := Handler.gfs, subreaper := false,
    procs := [(5, ProcState.reaped)], trace := [] }

/-- Whether a path is absolute (begins with a slash). -/
def isAbs (p : String) : Bool :=
  match p.data with
  | c :: _ => c = '/'
  | [] => false

/-- `os.path.join(d, f)` for the shapes the entrypoint uses: an absolute
second component replaces the first, otherwise the components are joined
with a slash. -/
def path_join (d f : String) : String :=
  if isAbs f then f else d ++ "/" ++ f

/-- `os.path.expanduser`: a leading tilde becomes the home directory of the
container user (`/home/blue`); other paths are unchanged. -/
def expanduser (p : String) : String :=
  match p.data with
  | c :: restChars => if c = '~' then BLUE_HOME ++ String.mk restChars else p
  | [] => p

/-- `' '.join(args)`. -/
def joinSpace (args : List String) : String := String.intercalate " " args

/-- What one `run_shell` invocation does, recorded as a value: the argument
vector actually passed to `Popen` (after the scripts-directory rewrite), the
working directory of the child, the discarded result of `process.wait()`,
and the list of process-exit requests the body makes — the body contains no
`sys.exit` and no `return`, so `exitCalls` is built empty and the function
falls off its end. -/
structure ShellRun where
  argv : List String
  cwd : String
  waitedStatus : Option Nat
  exitCalls : List Nat
deriving DecidableEq, Repr

/-- `run_shell(*args)`: `script_path = os.path.join(SCRIPT_DIR, args[0])`;
if that path exists, `args[0] = script_path`; then
`Popen(args, cwd = SCRIPT_DIR)` and `process.wait()`.  `fs` is the set of
existing filesystem paths; `childStatus` is the exit status of the spawned
child which `process.wait()` returns and the body discards.  An empty
vector would raise IndexError at `args[0]` (dispatch never passes one). -/
def run_shell (fs : List String) (args : List String) (childStatus : Nat) :
    Except PyErr ShellRun :=
  match args with
  | [] => Except.error PyErr.indexError
  | a :: rest =>
    let script_path := path_join SCRIPT_DIR a
    let argv := (if fs.contains script_path then script_path else a) :: rest
    Except.ok { argv := argv, cwd := SCRIPT_DIR,
                waitedStatus := some childStatus, exitCalls := [] }

/-- The supervisor's own exit status once `main()` finishes a `run_shell`
dispatch: the last explicit exit request, or 0 when the interpreter falls
off the end of `main` (Python exits 0 on a normal return). -/
def finalExitStatus (r : ShellRun) : Nat :=
  (r.exitCalls.getLast?).getD 0

/-- `subprocess.check_call(args)`: raises CalledProcessError exactly when
the spawned command exits non-zero. -/
def check_call (argv : List String) (status : Nat) : Option PyErr :=
  if status = 0 then none else some PyErr.calledProcessError

/-- `execute(*args, **kwargs)`: log the command line, run `check_call`, and
swallow a CalledProcessError (`except ... : pass`); any result of
`check_call` other than that exception would propagate. -/
def execute (argv : List String) (status : Nat) : List Event × Option PyErr :=
  let r := check_call argv status
  ([Event.logInfo ("-> running " ++ joinSpace argv), Event.checkCall argv],
   match r with
   | some PyErr.calledProcessError => none
   | other => other)

/-- `templatize(filename, destination_path, context)`: reads the template
at `os.path.join(TEMPLATE_PATH, filename)` and writes its substitution under
`context` to `os.path.expanduser(destination_path)` — recorded as one render
event (the substitution itself is the external Renderer's contract). -/
def templatize (filename destination : String)
    (context : List (String × String)) : Event :=
  Event.render (path_join TEMPLATE_PATH filename) (expanduser destination) context

/-- Whether an event is a configuration-file render. -/
def isRenderEvent : Event → Bool
  | Event.render _ _ _ => true
  | _ => false

/-- `start_service(command, *args)`: take the shared context (the result of
`get_context()`, environment-derived and passed in here), set
`context['service'] = args[0]` (a dict update, modelled as a shadowing
prepend), render `uwsgi.ini`, `nginx.conf` and `supervisord.conf` from that
one extended context, then `execute('supervisord', '-c', supervisord_config)`
— `supervisordStatus` being the exit status of that (self-daemonizing)
launcher command.  An empty `args` would raise IndexError at `args[0]`. -/
def start_service (ctx0 : List (String × String)) (command : String)
    (args : List String) (supervisordStatus : Nat) : Except PyErr (List Event) :=
  match args with
  | [] => Except.error PyErr.indexError
  | service :: _ =>
    let context := ("service", service) :: ctx0
    let supervisord_config := expanduser (path_join (path_join "~" "etc") "supervisord.conf")
    Except.ok
      ([templatize "uwsgi.ini" (path_join (path_join "~" "etc") "uwsgi.ini") context,
        templatize "nginx.conf" (path_join (path_join "~" "etc") "nginx.conf") context,
        templatize "supervisord.conf" supervisord_config context]
        ++ (execute ["supervisord", "-c", supervisord_config] supervisordStatus).1)

/-- A concrete world before a cron-launcher `GraceFulShutdown` scope: some
prior Python SIGTERM handler, no children yet. -/
def cronW0 : World :=
  { sigterm_handler := Handler.pyHandler "prior", subreaper := true,
    procs := [], trace := [] }

/-- The concrete state just after `GraceFulShutdown.__enter__` in the cron
launcher spawned the daemon as pid 7: object and world. -/
def cronEnter : GFS × World :=
  gfs_enter cron_daemon_cmd [("TZ", "UTC")] 7
    { process := none, old_handler := none } cronW0

/-- C1: dispatch of the empty vector runs the script launcher on
`/bin/bash`; a vector headed by "cron" invokes the cron launcher; one headed
by "start" invokes the web-service launcher with the remaining arguments as
its payload; any other non-empty vector invokes the script launcher on the
full vector.  `dispatch` is a function into `LauncherCall`, so exactly one
launcher is invoked per dispatch call, which the last conjunct records. -/
theorem dispatch_selects_unique_launcher (args : List String) :
    (args = [] → dispatch args = LauncherCall.runShell ["/bin/bash"]) ∧
    (∀ rest, args = "cron" :: rest → dispatch args = LauncherCall.runCron "cron" rest) ∧
    (∀ rest, args = "start" :: rest → dispatch args = LauncherCall.startService "start" rest) ∧
    (∀ a rest, args = a :: rest → a ≠ "cron" → a ≠ "start" →
      dispatch args = LauncherCall.runShell (a :: rest)) ∧
    (∃! c : LauncherCall, dispatch args = c) := by
  refine ⟨?_, ?_, ?_, ?_, dispatch args, rfl, fun c hc => hc.symm⟩
  · rintro rfl
    rfl
  · rintro rest rfl
    rfl
  · rintro rest rfl
    rfl
  · rintro a rest rfl ha hb
    simp [dispatch, ha, hb]

/-- C1 witness: the four concrete dispatches named by the spec. -/
theorem dispatch_selects_unique_launcher_witness :
    dispatch [] = LauncherCall.runShell ["/bin/bash"] ∧
    dispatch ["cron"] = LauncherCall.runCron "cron" [] ∧
    dispatch ["start", "app"] = LauncherCall.startService "start" ["app"] ∧
    dispatch ["migrate"] = LauncherCall.runShell ["migrate"] :=
  ⟨(dispatch_selects_unique_launcher []).1 rfl,
   (dispatch_selects_unique_launcher ["cron"]).2.1 [] rfl,
   (dispatch_selects_unique_launcher ["start", "app"]).2.2.1 ["app"] rfl,
   (dispatch_selects_unique_launcher ["migrate"]).2.2.2.1 "migrate" [] rfl
     (by decide) (by decide)⟩

/-- C2 counterexample: the claim says the installed handler performs a no-op
and does not raise when the child handle is not yet set, and does not raise
when the child has already exited.  On the code it raises in both concrete
situations: with `self.process` still `None` (the window inside `__enter__`
between installing the handler and `Popen` returning), `None.terminate()`
raises AttributeError; with the child already exited and reaped (the window
after `p.wait()` returns and before `__exit__`), `os.kill` raises OSError. -/
theorem graceful_shutdown_handler_raises_cex :
    graceful_shutdown_handler { process := none, old_handler := none }
        cexWorld SIGTERM = Except.error PyErr.attributeError ∧
    graceful_shutdown_handler { process := some 5, old_handler := some Handler.dfl }
        cexWorldReaped SIGTERM = Except.error PyErr.osError ∧
    exceptOk (graceful_shutdown_handler { process := none, old_handler := none }
        cexWorld SIGTERM) = false ∧
    exceptOk (graceful_shutdown_handler { process := some 5, old_handler := some Handler.dfl }
        cexWorldReaped SIGTERM) = false :=
  ⟨rfl, rfl, rfl, rfl⟩

/-- C2 amended: if the termination signal is delivered while the handler is
installed but before the child handle has been set, the handler raises
AttributeError (it dereferences the unset handle) rather than performing a
no-op; if it is delivered after the wrapped child has exited and been
reaped, the forwarded kill raises OSError; only while the child is alive
(or exited but not yet reaped) does forwarding proceed without raising; a
non-SIGTERM code is ignored.  The handler does not shield the supervisor
from these exceptions. -/
theorem graceful_shutdown_handler_behavior (g : GFS) (w : World) :
    (g.process = none →
      graceful_shutdown_handler g w SIGTERM = Except.error PyErr.attributeError) ∧
    (∀ pid, g.process = some pid → procLookup w.procs pid = some ProcState.reaped →
      graceful_shutdown_handler g w SIGTERM = Except.error PyErr.osError) ∧
    (∀ pid, g.process = some pid → procLookup w.procs pid = some ProcState.alive →
      graceful_shutdown_handler g w SIGTERM =
        Except.ok { w with trace := w.trace ++ [Event.terminateSig pid] }) ∧
    (∀ pid, g.process = some pid → procLookup w.procs pid = some ProcState.zombie →
      graceful_shutdown_handler g w SIGTERM =
        Except.ok { w with trace := w.trace ++ [Event.terminateSig pid] }) ∧
    (∀ code, code ≠ SIGTERM → graceful_shutdown_handler g w code = Except.ok w) := by
  refine ⟨?_, ?_, ?_, ?_, ?_⟩
  · intro h
    simp [graceful_shutdown_handler, h]
  · intro pid hp hr
    simp [graceful_shutdown_handler, hp, osKill, hr]
  · intro pid hp hr
    simp [graceful_shutdown_handler, hp, osKill, hr]
  · intro pid hp hr
    simp [graceful_shutdown_handler, hp, osKill, hr]
  · intro code hc
    simp [graceful_shutdown_handler, hc]

/-- C2 amended, witness: the characterization applied at concrete states —
an unset handle raises, a reaped child raises, an alive child (pid 5) gets
the signal forwarded, and signal code 2 is ignored. -/
theorem graceful_shutdown_handler_behavior_witness :
    graceful_shutdown_handler { process := none, old_handler := none }
        cexWorld SIGTERM = Except.error PyErr.attributeError ∧
    graceful_shutdown_handler { process := some 5, old_handler := some Handler.dfl }
        cexWorldReaped SIGTERM = Except.error PyErr.osError ∧
    graceful_shutdown_handler { process := some 5, old_handler := some Handler.dfl }
        { cexWorldReaped with procs := [(5, ProcState.alive)] } SIGTERM =
      Except.ok { cexWorldReaped with procs := [(5, ProcState.alive)],
                                      trace := [Event.terminateSig 5] } ∧
    graceful_shutdown_handler { process := some 5, old_handler := some Handler.dfl }
        cexWorldReaped 2 = Except.ok cexWorldReaped :=
  ⟨(graceful_shutdown_handler_behavior { process := none, old_handler := none }
      cexWorld).1 rfl,
   (graceful_shutdown_handler_behavior { process := some 5, old_handler := some Handler.dfl }
      cexWorldReaped).2.1 5 rfl (by decide),
   (graceful_shutdown_handler_behavior { process := some 5, old_handler := some Handler.dfl }
      { cexWorldReaped with procs := [(5, ProcState.alive)] }).2.2.1 5 rfl (by decide),
   (graceful_shutdown_handler_behavior { process := some 5, old_handler := some Handler.dfl }
      cexWorldReaped).2.2.2.2 2 (by decide)⟩

/-- C3: for every `GraceFulShutdown` scope — any command vector, spawn
options, spawned pid, and any sequence of environment actions during the
scope (signal deliveries, the child exiting, being reaped) — the SIGTERM
disposition after `__exit__` returns is exactly the one in force before
`__enter__` was called: `__enter__` saves it into `old_handler` before
installing the forwarding handler, nothing during the scope overwrites the
saved value, and `__exit__` reinstalls it unconditionally. -/
theorem signal_handler_restored_after_scope (w : World) (argv : List String)
    (env : List (String × String)) (pid : Nat) (acts : List ScopeAct) :
    Option.map World.sigterm_handler
      (gfs_exit (gfs_enter argv env pid { process := none, old_handler := none } w).1
        (acts.foldl (scopeStep (gfs_enter argv env pid
            { process := none, old_handler := none } w).1)
          (gfs_enter argv env pid { process := none, old_handler := none } w).2))
      = some w.sigterm_handler := by
  simp [gfs_enter, gfs_exit]

/-- Shared lemma: the drain loop consumes exactly the successful waits before
the first failure — one reap-log per child, then the closing log — and its
result does not depend on which error ends the loop. -/
theorem wait_for_children_ok_prefix (reaps : List (Nat × Nat)) (e : WaitErr)
    (rest : List (Except WaitErr (Nat × Nat))) :
    wait_for_children (reaps.map Except.ok ++ Except.error e :: rest)
      = some ((reaps.map fun p => Event.logReaped p.1 p.2)
          ++ [Event.logInfo "All children were terminated."]) := by
  induction reaps with
  | nil => rfl
  | cons hd tl ih =>
    obtain ⟨pid, status⟩ := hd
    simp [wait_for_children, ih]

/-- C4: `ChildSubReaper.__exit__` drains children one at a time, logging one
line with the reaped pid and exit status per iteration; any failure of the
wait primitive — ECHILD, EINTR, or anything else, all raised as OSError —
terminates the loop identically (the result is the same for every `e`); and
the subreaper flag is unset only after the loop, as the last event.  The
instance `reaps = []` is the case where draining finds no children at all:
the flag is still unset. -/
theorem subreaper_exit_drains_then_unsets (w : World) (reaps : List (Nat × Nat))
    (e : WaitErr) (rest : List (Except WaitErr (Nat × Nat))) :
    csr_exit (reaps.map Except.ok ++ Except.error e :: rest) w
      = some { w with subreaper := false,
                      trace := w.trace ++ (reaps.map fun p => Event.logReaped p.1 p.2)
                        ++ [Event.logInfo "All children were terminated.",
                            Event.prctlSubreaper false] } := by
  simp [csr_exit, wait_for_children_ok_prefix]

/-- C10: the scope's cleanup is unconditional.  Whatever the body of a
`with ChildSubReaper():` block does — including ending in an exception `err`
such as a spawn failure inside the nested signal-forwarding scope — the
drain loop still runs to completion, its log lines and the flag-unset event
are appended after the body's events, the subreaper flag ends up unset, and
only then is the body's exception propagated, unchanged, out of the scope. -/
theorem subreaper_cleanup_unconditional (w : World) (reaps : List (Nat × Nat))
    (e : WaitErr) (rest : List (Except WaitErr (Nat × Nat)))
    (body : World → World × Option PyErr) :
    withChildSubReaper (reaps.map Except.ok ++ Except.error e :: rest) body w
      = some ({ (body (csr_enter w)).1 with
                  subreaper := false,
                  trace := (body (csr_enter w)).1.trace
                    ++ (reaps.map fun p => Event.logReaped p.1 p.2)
                    ++ [Event.logInfo "All children were terminated.",
                        Event.prctlSubreaper false] },
              (body (csr_enter w)).2) := by
  simp [withChildSubReaper, csr_exit, wait_for_children_ok_prefix]

/-- A normal return of the forwarding handler appends at most a forwarded
termination signal to the trace, never a supervision-lifecycle event. -/
theorem handler_ok_trace_filter (g : GFS) (w : World) (code : Nat) (w1 : World)
    (h : graceful_shutdown_handler g w code = Except.ok w1) :
    List.filter isScopeEvent w1.trace = List.filter isScopeEvent w.trace := by
  unfold graceful_shutdown_handler osKill at h
  split at h
  · split at h
    · simp at h
    · split at h
      · injection h with h2
        rw [← h2]
        simp [isScopeEvent]
      · injection h with h2
        rw [← h2]
        simp [isScopeEvent]
      · simp at h
      · simp at h
  · injection h with h2
    rw [← h2]

/-- No environment action during a scope appends a supervision-lifecycle
event to the trace: deliveries append at most a forwarded signal or an
escaped exception, child exits and reaps touch only the process table. -/
theorem scopeStep_trace_filter (g : GFS) (w : World) (a : ScopeAct) :
    List.filter isScopeEvent (scopeStep g w a).trace
      = List.filter isScopeEvent w.trace := by
  cases a with
  | deliver code =>
    simp only [scopeStep]
    split
    · split
      · split
        · rename_i w1 hr
          exact handler_ok_trace_filter g w code w1 hr
        · simp [isScopeEvent]
      · rfl
    · rfl
  | childExits pid =>
    simp only [scopeStep]
    split <;> rfl
  | reap pid =>
    simp only [scopeStep]
    split <;> rfl

/-- Folding any sequence of environment actions over a state leaves the
supervision-lifecycle subsequence of the trace unchanged. -/
theorem foldl_scopeStep_trace_filter (g : GFS) (acts : List ScopeAct) :
    ∀ w : World, List.filter isScopeEvent (acts.foldl (scopeStep g) w).trace
      = List.filter isScopeEvent w.trace := by
  induction acts with
  | nil => intro w; rfl
  | cons a tl ih =>
    intro w
    rw [List.foldl_cons, ih, scopeStep_trace_filter]

/-- Reap-log lines are not supervision-lifecycle events. -/
theorem filter_scope_logReaped (reaps : List (Nat × Nat)) :
    List.filter isScopeEvent (reaps.map fun p => Event.logReaped p.1 p.2) = [] := by
  induction reaps with
  | nil => rfl
  | cons hd tl ih => simp [isScopeEvent, ih]

/-- C7: in every cron-launcher invocation the supervision-lifecycle events
are strictly ordered — subreaper registration, then SIGTERM-handler
installation, then the spawn of the cron daemon, then the blocking wait that
returns only when the daemon has terminated; on the way out the forwarding
scope closes first (reinstalling the old handler) and the subreaper scope
closes last (draining, then unsetting the flag as the final event).  The
statement holds for any interleaved environment actions `acts` (signal
deliveries and child transitions, which never add lifecycle events), so no
descendant is spawned before both forwarding and reaping are active.  The
final state also has the subreaper flag unset and the original handler. -/
theorem run_cron_event_order (environ : List (String × String)) (pid : Nat)
    (acts : List ScopeAct) (reaps : List (Nat × Nat)) (e : WaitErr)
    (rest : List (Except WaitErr (Nat × Nat))) (w : World) :
    Option.map
        (fun w2 => (List.filter isScopeEvent w2.trace, w2.subreaper, w2.sigterm_handler))
        (run_cron environ pid acts (reaps.map Except.ok ++ Except.error e :: rest) w)
      = some (List.filter isScopeEvent w.trace
          ++ [Event.prctlSubreaper true,
              Event.sigInstall Handler.gfs,
              Event.spawn cron_daemon_cmd none (cron_daemon_env environ),
              Event.waitChild pid,
              Event.sigInstall w.sigterm_handler,
              Event.prctlSubreaper false],
          false, w.sigterm_handler) := by
  unfold run_cron
  simp only [csr_enter, gfs_enter, gfs_exit, p_wait, csr_exit,
             wait_for_children_ok_prefix, Option.map]
  simp [List.filter_append, foldl_scopeStep_trace_filter, isScopeEvent,
        filter_scope_logReaped]

/-- C5 counterexample: the claim says at most one termination signal reaches
the wrapped child in total, even when the supervisor receives SIGTERM
multiple times.  On the code, every delivery that reaches the installed
handler runs `self.process.terminate()` again: two deliveries to the
concrete post-spawn state forward two signals to the child, not one. -/
theorem sigterm_forwarded_once_cex :
    countForward (((List.replicate 2 (ScopeAct.deliver 15)).foldl
        (scopeStep cronEnter.1) cronEnter.2).trace) = 2 ∧
    ¬ countForward (((List.replicate 2 (ScopeAct.deliver 15)).foldl
        (scopeStep cronEnter.1) cronEnter.2).trace) ≤ 1 := by
  constructor
  · rfl
  · decide

/-- While the child handle is set and the child alive under the forwarding
handler, each delivered SIGTERM appends exactly one forwarded termination
signal to the trace; `n` deliveries append `n`. -/
theorem deliver_sigterm_replicate (g : GFS) (pid : Nat) :
    ∀ (n : Nat) (w : World), g.process = some pid →
      w.sigterm_handler = Handler.gfs →
      procLookup w.procs pid = some ProcState.alive →
      countForward (((List.replicate n (ScopeAct.deliver SIGTERM)).foldl
          (scopeStep g) w).trace)
        = countForward w.trace + n := by
  intro n
  induction n with
  | zero => intro w _ _ _; rfl
  | succ m ih =>
    intro w hp hs ha
    have hstep : scopeStep g w (ScopeAct.deliver SIGTERM)
        = { w with trace := w.trace ++ [Event.terminateSig pid] } := by
      simp [scopeStep, hs, graceful_shutdown_handler, hp, osKill, ha]
    rw [List.replicate_succ, List.foldl_cons, hstep]
    rw [ih { w with trace := w.trace ++ [Event.terminateSig pid] } hp hs ha]
    simp [countForward, List.countP_append, isForwardSig]
    omega

/-- C5 amended: while a `GraceFulShutdown` scope is active with the spawned
child alive, the handler forwards one termination signal to the child per
delivered SIGTERM — `n` deliveries in quick succession yield exactly `n`
forwarded signals, not at most one; the code performs no deduplication.
(Each delivery that reaches the handler is modelled; coalescing of pending
signals, an OS effect the code does not control, would only merge
deliveries before they reach the handler.) -/
theorem sigterm_forwarded_per_delivery (w : World) (argv : List String)
    (env : List (String × String)) (pid : Nat) (n : Nat) :
    countForward (((List.replicate n (ScopeAct.deliver SIGTERM)).foldl
        (scopeStep (gfs_enter argv env pid { process := none, old_handler := none } w).1)
        (gfs_enter argv env pid { process := none, old_handler := none } w).2).trace)
      = countForward w.trace + n := by
  rw [deliver_sigterm_replicate
    (gfs_enter argv env pid { process := none, old_handler := none } w).1 pid n
    (gfs_enter argv env pid { process := none, old_handler := none } w).2
    (by simp [gfs_enter]) (by simp [gfs_enter]) (by simp [gfs_enter, procLookup])]
  simp [gfs_enter, countForward, List.countP_append, isForwardSig]

/-- C8: for every argument vector given to the script launcher, if a file of
the first argument's name exists in the fixed scripts directory the first
argument is rewritten to that file's full path before spawning; otherwise
the vector is spawned unchanged, so the name resolves via the executable
search path.  In both cases the child runs with the scripts directory as
working directory, the remaining arguments are passed unchanged, and the
launcher blocks until the child exits (recording the wait's result). -/
theorem run_shell_resolution (fs : List String) (a : String)
    (rest : List String) (status : Nat) :
    (fs.contains (path_join SCRIPT_DIR a) = true →
      run_shell fs (a :: rest) status =
        Except.ok { argv := path_join SCRIPT_DIR a :: rest, cwd := SCRIPT_DIR,
                    waitedStatus := some status, exitCalls := [] }) ∧
    (fs.contains (path_join SCRIPT_DIR a) = false →
      run_shell fs (a :: rest) status =
        Except.ok { argv := a :: rest, cwd := SCRIPT_DIR,
                    waitedStatus := some status, exitCalls := [] }) := by
  constructor
  · intro h
    simp only [run_shell, h]
    rfl
  · intro h
    simp only [run_shell, h]
    rfl

/-- C8 witness: with `/scripts/foo` existing, `run_shell("foo", "x")`
executes `/scripts/foo` from the scripts directory; with no `/scripts/bar`,
`run_shell("bar")` spawns `bar` unchanged. -/
theorem run_shell_resolution_witness :
    run_shell ["/scripts/foo"] ["foo", "x"] 0 =
      Except.ok { argv := ["/scripts/foo", "x"], cwd := "/scripts",
                  waitedStatus := some 0, exitCalls := [] } ∧
    run_shell ["/scripts/foo"] ["bar"] 0 =
      Except.ok { argv := ["bar"], cwd := "/scripts",
                  waitedStatus := some 0, exitCalls := [] } :=
  ⟨(run_shell_resolution ["/scripts/foo"] "foo" ["x"] 0).1 (by decide),
   (run_shell_resolution ["/scripts/foo"] "bar" [] 0).2 (by decide)⟩

/-- C6 counterexample: the claim says a bare script invocation propagates
the child's non-zero exit status as the supervisor's own exit status.  On
the code, `run_shell` calls `process.wait()` and discards its result, the
body makes no exit request, and `main` returns normally: with the child
exiting 7, the supervisor's own exit status is 0, not 7. -/
theorem script_exit_status_not_propagated_cex :
    Except.map finalExitStatus (run_shell [] ["myscript"] 7) = Except.ok 0 ∧
    (0 : Nat) ≠ 7 := by
  constructor
  · rfl
  · decide

/-- C6 amended: `run_shell` blocks on the child and discards its exit
status — for every filesystem, argument vector and child status the
supervisor's own exit status after a script dispatch is 0, never the
child's; and for the other external-tool invocations, `execute` logs the
command line before running it and swallows a non-zero exit
(CalledProcessError), so such a failure never propagates as the
supervisor's own. -/
theorem script_exit_status_discarded (fs : List String) (a : String)
    (rest : List String) (childStatus : Nat) (argv : List String) (st : Nat) :
    Except.map finalExitStatus (run_shell fs (a :: rest) childStatus) = Except.ok 0 ∧
    (execute argv st).2 = none ∧
    (execute argv st).1 =
      [Event.logInfo ("-> running " ++ joinSpace argv), Event.checkCall argv] := by
  refine ⟨?_, ?_, rfl⟩
  · cases h : fs.contains (path_join SCRIPT_DIR a) with
    | true =>
      simp only [run_shell, h]
      rfl
    | false =>
      simp only [run_shell, h]
      rfl
  · unfold execute check_call
    by_cases h : st = 0
    · simp [h]
    · simp [h]

/-- C9: the web-service launcher renders exactly three service-configuration
files — the application-server (`uwsgi.ini`), reverse-proxy (`nginx.conf`)
and process-supervisor (`supervisord.conf`) configurations — all from the
one shared context extended with the requested service name (the element
after "start"), then starts the `supervisord` daemon via a plain blocking
`check_call` on the self-daemonizing launcher command and returns; its
event list contains no subreaper toggle, no handler installation, no spawn
held as a handle and no wait on a child: the daemon is neither wrapped in a
`ChildSubReaper`/`GraceFulShutdown` scope nor blocked on. -/
theorem start_service_renders_and_starts_daemon (ctx0 : List (String × String))
    (command service : String) (rest : List String) (st : Nat) :
    start_service ctx0 command (service :: rest) st =
      Except.ok
        [Event.render "/home/blue/templates/uwsgi.ini" "/home/blue/etc/uwsgi.ini"
           (("service", service) :: ctx0),
         Event.render "/home/blue/templates/nginx.conf" "/home/blue/etc/nginx.conf"
           (("service", service) :: ctx0),
         Event.render "/home/blue/templates/supervisord.conf" "/home/blue/etc/supervisord.conf"
           (("service", service) :: ctx0),
         Event.logInfo "-> running supervisord -c /home/blue/etc/supervisord.conf",
         Event.checkCall ["supervisord", "-c", "/home/blue/etc/supervisord.conf"]] ∧
    Except.map (fun tr => (tr.countP isRenderEvent, tr.filter isScopeEvent))
        (start_service ctx0 command (service :: rest) st) =
      Except.ok (3, []) := by
  have h1 : start_service ctx0 command (service :: rest) st =
      Except.ok
        [Event.render "/home/blue/templates/uwsgi.ini" "/home/blue/etc/uwsgi.ini"
           (("service", service) :: ctx0),
         Event.render "/home/blue/templates/nginx.conf" "/home/blue/etc/nginx.conf"
           (("service", service) :: ctx0),
         Event.render "/home/blue/templates/supervisord.conf" "/home/blue/etc/supervisord.conf"
           (("service", service) :: ctx0),
         Event.logInfo "-> running supervisord -c /home/blue/etc/supervisord.conf",
         Event.checkCall ["supervisord", "-c", "/home/blue/etc/supervisord.conf"]] := rfl
  refine ⟨h1, ?_⟩
  rw [h1]
  rfl
